import Mathlib

/-!
Shallow embedding of the Linux USB transport layer of brltty
(`Programs/usb_linux.c`) and proofs about its documented behaviour.

Kernel interactions (`ioctl` on the usbfs file) are modelled as explicit
oracle parameters: a kernel call either succeeds or fails with an `errno`
value.  The embedding follows the C control flow statement by statement;
logging calls are dropped (they do not affect control flow or state).
-/

namespace UsbLinux

/-! ### errno values (from `<errno.h>`, Linux) -/

def EIO : Nat := 5
def EAGAIN : Nat := 11
def EBUSY : Nat := 16
def ENODEV : Nat := 19
def EINVAL : Nat := 22
def ENOSYS : Nat := 38
def ETIMEDOUT : Nat := 110

/-! ### usbfs URB type tags (from `<linux/usbdevice_fs.h>`) -/

def USBDEVFS_URB_TYPE_ISO : Nat := 0
def USBDEVFS_URB_TYPE_INTERRUPT : Nat := 1
def USBDEVFS_URB_TYPE_CONTROL : Nat := 2
def USBDEVFS_URB_TYPE_BULK : Nat := 3

/-- The declared transfer type of the endpoint (`USB_ENDPOINT_TRANSFER`). -/
inductive UsbEndpointTransfer where
  | Control
  | Isochronous
  | Bulk
  | Interrupt
deriving DecidableEq, Repr

/-- The direction of the endpoint (`USB_ENDPOINT_DIRECTION`). -/
inductive UsbEndpointDirection where
  | Input
  | Output
deriving DecidableEq, Repr

/-- Result of one kernel call: success, or failure with an `errno`. -/
abbrev KernelResult := Except Nat Unit

/-- The `switch (USB_ENDPOINT_TRANSFER(endpoint))` in `usbMakeURB`:
the usbfs URB type tag assigned to a freshly allocated URB,
derived from the declared transfer type of the endpoint descriptor. -/
def usbMakeUrbType : UsbEndpointTransfer → Nat
  | .Control => USBDEVFS_URB_TYPE_CONTROL
  | .Isochronous => USBDEVFS_URB_TYPE_ISO
  | .Interrupt => USBDEVFS_URB_TYPE_INTERRUPT
  | .Bulk => USBDEVFS_URB_TYPE_BULK

/-- `usbSubmitURB` (usb_linux.c:584-614).  `kernel ty` is the outcome of the
`USBDEVFS_SUBMITURB` ioctl for a URB whose current type tag is `ty`
(between the two attempts only the type field of the URB changes).
`descriptor` is the declared transfer type of the endpoint descriptor.
Returns whether the submission succeeded together with the list of URB
type tags that were actually handed to the kernel, in order.

The C loop re-enters only after setting the type tag to
`USBDEVFS_URB_TYPE_INTERRUPT`, so each re-entry strictly decreases the
measure `if ty = BULK then 1 else 0`. -/
def usbSubmitURB (kernel : Nat → KernelResult)
    (descriptor : UsbEndpointTransfer) (ty : Nat) : Bool × List Nat :=
  match kernel ty with
  | .ok _ => (true, [ty])
  | .error e =>
    if e = EINVAL ∧ descriptor = .Interrupt ∧ ty = USBDEVFS_URB_TYPE_BULK then
      let r := usbSubmitURB kernel descriptor USBDEVFS_URB_TYPE_INTERRUPT
      (r.1, ty :: r.2)
    else
      (false, [ty])
termination_by (if ty = USBDEVFS_URB_TYPE_BULK then 1 else 0)
decreasing_by
  rename_i h
  simp only [USBDEVFS_URB_TYPE_BULK] at h
  simp [h.2.2, USBDEVFS_URB_TYPE_BULK, USBDEVFS_URB_TYPE_INTERRUPT]

/-! ### Interface claiming (`usbClaimInterface`, `usbDisconnectInterface`) -/

/-- Outcome of an engine operation that returns a C truth value plus the
`errno` it leaves behind, together with counters for how many
`USBDEVFS_CLAIMINTERFACE` ioctls and how many driver-disconnect attempts
(`usbDisconnectDriver` calls) were made. -/
structure ClaimOutcome where
  success : Bool
  errno : Nat
  claimCalls : Nat
  disconnectCalls : Nat
deriving DecidableEq, Repr

/-- An iteration of the `while (1)` loop of `usbClaimInterface`
(usb_linux.c:251-263) entered with `disconnected` already set: a busy
failure now hits the `if (disconnected) break;` guard and any other
failure hits the `if (errno != EBUSY) break;` guard, so this iteration is
terminal either way — success on a successful ioctl, failure carrying the
reported errno otherwise.  `claim i` is the outcome of the `i`-th
`USBDEVFS_CLAIMINTERFACE` ioctl. -/
def usbClaimRetry (claim : Nat → KernelResult) (i : Nat) : ClaimOutcome :=
  match claim i with
  | .ok _ => ⟨true, 0, 1, 0⟩
  | .error e => ⟨false, e, 1, 0⟩

/-- `usbClaimInterface` (usb_linux.c:242-269), assuming the usbfs file is
open, with `usbDisconnectInterface` (usb_linux.c:206-224) inlined: the
first loop iteration runs with `disconnected = 0`; the loop re-enters
only after a successful disconnect, which sets `disconnected = 1`, and
that sole re-entry is `usbClaimRetry`.

`driver` is what `usbGetDriver` reports as the current owner of the
interface (`none` when that ioctl itself fails); `disconnectOk` is the
outcome of `usbDisconnectDriver`. -/
def usbClaimInterface (claim : Nat → KernelResult) (driver : Option String)
    (disconnectOk : Bool) : ClaimOutcome :=
  match claim 0 with
  | .ok _ => ⟨true, 0, 1, 0⟩
  | .error e =>
    if e ≠ EBUSY then ⟨false, e, 1, 0⟩
    else
      match driver with
      | none => ⟨false, EBUSY, 1, 0⟩
      | some d =>
        if d = "usbfs" then ⟨false, EBUSY, 1, 0⟩
        else if disconnectOk then
          let r := usbClaimRetry claim 1
          ⟨r.success, r.errno, r.claimCalls + 1, r.disconnectCalls + 1⟩
        else ⟨false, EBUSY, 1, 1⟩

/-! ### Input-monitor backoff (`usbHandleInputSignal`, `usbGetResubmitDelay`) -/

/-- `usbGetResubmitDelay` (usb_linux.c:925-931): the nominal
resubmission interval — the `bInterval` field of its descriptor, or the fixed default
`USB_INPUT_URB_RESUBMIT_DELAY` when the device reports zero. -/
def usbGetResubmitDelay (bInterval defaultDelay : Nat) : Nat :=
  if bInterval = 0 then defaultDelay else bInterval

/-- The zero-bytes branch of `usbHandleInputSignal` (usb_linux.c:969-972):
`*delay = *delay? (*delay << 1): 1; *delay = MIN(*delay, cap);`
where `cap` is `BRAILLE_INPUT_POLL_INTERVAL`. -/
def usbZeroByteStep (cap delay : Nat) : Nat :=
  min (if delay = 0 then 1 else delay <<< 1) cap

/-- The delay update performed by `usbHandleInputSignal`
(usb_linux.c:969-983) on a reaped expected URB: `count` is
`response.count`, `enqueueOk` the outcome of `usbEnqueueInput`, `nominal`
the `usbGetResubmitDelay` value of the endpoint, `cap` the fixed poll-interval
cap.  `none` means monitoring ends without touching the delay
(`written` stayed 0). -/
def usbMonitorDelayStep (cap nominal : Nat) (count : Int) (enqueueOk : Bool)
    (delay : Nat) : Option Nat :=
  if count = 0 then some (usbZeroByteStep cap delay)
  else if 0 < count then
    if enqueueOk then some nominal else none
  else none

/-! ### Request cancellation (`usbCancelRequest`, usb_linux.c:647-691)

Completed-request queues are modelled as lists of request identifiers
(insertion order); `deleteItem` removes the first occurrence of its item,
matching the pointer-identity deletion of the C `Queue`. -/

/-- What one non-blocking `usbReapUrb` call (usb_linux.c:380-409) can do,
as seen from the endpoint whose queue the cancellation is draining:
fail (ioctl error, endpoint lookup failure or enqueue failure — the C
function returns 0), deliver a completed URB to the queue of some other
endpoint (returns 1, our queue unchanged), or deliver URB `u` to the
queue of this endpoint (returns 1). -/
inductive ReapOutcome where
  | fail
  | other
  | here (u : Nat)
deriving DecidableEq, Repr

/-- The drain loop of `usbCancelRequest` (usb_linux.c:668-677):
repeatedly try `deleteItem(completedRequests, request)`; on failure stop
with `found = 1` if `reap` is off, otherwise perform one non-blocking
reap, stopping with `found = 0` when it fails.  Returns `found` and the
final queue. -/
def usbCancelDrain (r : Nat) (reap : Bool) :
    List Nat → List ReapOutcome → Bool × List Nat
  | q, outcomes =>
    if r ∈ q then (true, q.erase r)
    else if ¬reap then (true, q)
    else
      match outcomes with
      | [] => (false, q)
      | .fail :: _ => (false, q)
      | .other :: rest => usbCancelDrain r reap q rest
      | .here u :: rest => usbCancelDrain r reap (q ++ [u]) rest

/-- Result of `usbCancelRequest`: the C return value, the final
completed-request queue, and how many times the request was passed to
`free`. -/
structure CancelOutcome where
  success : Bool
  queue : List Nat
  freeCount : Nat
deriving DecidableEq, Repr

/-- `usbCancelRequest` (usb_linux.c:647-691), assuming the usbfs file is
open and the endpoint lookup succeeds.  `discard` is the outcome of the
`USBDEVFS_DISCARDURB` ioctl: reaping is suppressed exactly when it fails
with `ENODEV`.  The request is freed exactly when the drain ends with
`found = 1`. -/
def usbCancelRequest (discard : KernelResult) (q : List Nat) (r : Nat)
    (outcomes : List ReapOutcome) : CancelOutcome :=
  let reap : Bool :=
    match discard with
    | .ok _ => true
    | .error e => e ≠ ENODEV
  let d := usbCancelDrain r reap q outcomes
  if d.1 then ⟨true, d.2, 1⟩ else ⟨false, d.2, 0⟩

/-! ### Host-device discovery (`usbAddHostDevices`, `usbAddHostDevice`) -/

/-- A node of the discovery filesystem: a directory with named entries,
a regular file, a character-special file, or anything else `stat` can
report (fifo, socket, block device, ...). -/
inductive FsNode where
  | dir (entries : List (String × FsNode))
  | reg
  | chr
  | other

/-- The numeric-name test of `usbAddHostDevices` (usb_linux.c:1320):
`strspn(name, "0123456789") == strlen(name)` — every character is a
decimal digit. -/
def usbNameIsNumeric (name : String) : Bool :=
  name.data.all fun c => c.isDigit

/-- `usbAddHostDevice` (usb_linux.c:1276-1303), with allocation failures
ignored: the device is entered into the inventory exactly when
`usbReadHostDeviceDescriptor` succeeds (`readOk path`); a failed
descriptor read drops the device but leaves the scan successful. -/
def usbAddHostDevice (readOk : String → Bool) (path : String) : List String :=
  if readOk path then [path] else []

mutual

/-- Dispatch on `stat` of one numeric-named entry (usb_linux.c:1324-1328):
directories are recursed into via `usbAddHostDevices`, regular and
character-special files go through `usbAddHostDevice`, everything else is
skipped. -/
def usbScanNode (readOk : String → Bool) (path : String) :
    FsNode → List String
  | .dir entries => usbScanEntries readOk path entries
  | .reg => usbAddHostDevice readOk path
  | .chr => usbAddHostDevice readOk path
  | .other => []

/-- The `readdir` loop of `usbAddHostDevices` (usb_linux.c:1315-1331):
entries whose names are not purely numeric are skipped; for the rest the
child path `root/name` is built and the entry is dispatched on its
`stat` type.  The inventory accumulates in iteration order. -/
def usbScanEntries (readOk : String → Bool) (root : String) :
    List (String × FsNode) → List String
  | [] => []
  | (name, node) :: rest =>
    (if usbNameIsNumeric name
     then usbScanNode readOk (root ++ "/" ++ name) node
     else []) ++ usbScanEntries readOk root rest

end

/-- `usbAddHostDevices root` (usb_linux.c:1305-1337) applied to the opened
root directory: scan its entries. -/
def usbAddHostDevices (readOk : String → Bool) (root : String)
    (entries : List (String × FsNode)) : List String :=
  usbScanEntries readOk root entries

/-! ### Power-control path correlation (`usbMakeSysfsPath`, usb_linux.c:1177-1226) -/

/-- Width of the C `unsigned int` values in `usbMakeSysfsPath`. -/
def U32 : Nat := 2 ^ 32

/-- C unsigned-int subtraction of 1: `x - 1` wrapping modulo `2^32`. -/
def cDec (x : Nat) : Nat :=
  (x + (U32 - 1)) % U32

/-- `unsigned int minor = ((bus - 1) << 7) | (device - 1);`
(usb_linux.c:1197), in C `unsigned int` arithmetic. -/
def usbBusDeviceMinor (bus device : Nat) : Nat :=
  ((cDec bus <<< 7) % U32) ||| cDec device

/-- The three control-filesystem path templates (usb_linux.c:1199-1204),
instantiated for the parsed `bus`/`device` pair; `%u` prints the value of
the C `unsigned int`, i.e. modulo `2^32`.  The `%n`/truncation trick of
the C code cuts each template down to exactly these strings. -/
def usbSysfsCandidates (bus device : Nat) : List String :=
  [ "/sys/dev/char/189:" ++ toString (usbBusDeviceMinor bus device),
    "/sys/class/usb_device/usbdev" ++ toString (bus % U32) ++ "."
      ++ toString (device % U32) ++ "/device",
    "/sys/class/usb_endpoint/usbdev" ++ toString (bus % U32) ++ "."
      ++ toString (device % U32) ++ "_ep00/device" ]

/-- The probing loop of `usbMakeSysfsPath` (usb_linux.c:1207-1221):
walk the template list in order and return the first instantiated path
that exists (`access(path, F_OK) != -1`). -/
def usbProbeFormats (pathExists : String → Bool) : List String → Option String
  | [] => none
  | p :: rest => if pathExists p then some p else usbProbeFormats pathExists rest

/-- `usbMakeSysfsPath` (usb_linux.c:1177-1226) after its trailing
`/bus/device` suffix has been parsed by `sscanf` into `bus` and
`device`. -/
def usbMakeSysfsPath (pathExists : String → Bool) (bus device : Nat) :
    Option String :=
  usbProbeFormats pathExists (usbSysfsCandidates bus device)

/-! ### Interface release (`usbReleaseInterface`, usb_linux.c:271-285) -/

/-- `usbReleaseInterface`: issue the `USBDEVFS_RELEASEINTERFACE` ioctl;
success, or a failure with `errno == ENODEV`, yields the C result 1;
any other failure (or a failed usbfs open) yields 0. -/
def usbReleaseInterface (openOk : Bool) (release : KernelResult) : Bool :=
  if openOk then
    match release with
    | .ok _ => true
    | .error e => if e = ENODEV then true else false
  else false

/-! ### Synchronous bulk transfer (`usbBulkTransfer`, usb_linux.c:740-769) -/

/-- `usbBulkTransfer`: `kernel` is the outcome of the `USBDEVFS_BULK`
ioctl (transferred byte count, or an `errno`).  Returns the C return
value (`count`, or -1 on failure) together with the `errno` left behind
on failure; on an input endpoint a kernel `ETIMEDOUT` is rewritten to
`EAGAIN` before any error is surfaced. -/
def usbBulkTransfer (openOk : Bool) (direction : UsbEndpointDirection)
    (kernel : Except Nat Nat) : Int × Option Nat :=
  if openOk then
    match kernel with
    | .ok count => ((count : Int), none)
    | .error e =>
      let e2 := if direction = .Input ∧ e = ETIMEDOUT then EAGAIN else e
      (-1, some e2)
  else (-1, none)

/-! ### Input filtering and `usbReadEndpoint` (usb_linux.c:820-870) -/

/-- Modelled from the spec: `usbApplyInputFilters` lives in the generic
USB layer (`usb.c`), which is not part of the sources of this repository; §6
of the spec describes it as a sequence of filter functions, each mapping
a byte count to an adjusted count or rejecting the block, applied in
order, where any rejection rejects the whole block. -/
def usbApplyInputFilters (filters : List (Nat → Option Nat)) (count : Nat) :
    Option Nat :=
  filters.foldl (fun acc f => acc.bind f) (some count)

/-- The truncating copy of the interrupt read path (usb_linux.c:842-844):
`count = urb->actual_length; if (count > length) count = length;
memcpy(buffer, urb->buffer, count);`.  Returns the bytes placed in the
buffer of the caller and the resulting count. -/
def usbInterruptReadCopy (length actual : Nat) (urbBuffer : List Nat) :
    List Nat × Nat :=
  let count := if actual > length then length else actual
  (urbBuffer.take count, count)

/-- Result of `usbReadEndpoint`: the returned byte count (-1 on failure)
and the `errno` it sets (`none` = left untouched). -/
structure ReadOutcome where
  count : Int
  errno : Option Nat
deriving DecidableEq, Repr

/-- The tail of `usbReadEndpoint` (usb_linux.c:861-866): a successful
count of a successful transfer is passed through the input-filter chain; rejection
turns the success into `count = -1`, `errno = EIO`. -/
def usbReadFilterStage (filters : List (Nat → Option Nat))
    (count : Int) (errno : Option Nat) : ReadOutcome :=
  if count ≠ -1 then
    match usbApplyInputFilters filters count.toNat with
    | some c => ⟨(c : Int), errno⟩
    | none => ⟨-1, some EIO⟩
  else ⟨count, errno⟩

/-- `usbReadEndpoint` (usb_linux.c:820-870) on a successfully looked-up
input endpoint.  `treatInterruptAsBulk` is the build-time flag
`LINUX_USB_INPUT_TREAT_INTERRUPT_AS_BULK`; `bulkKernel` is the
`USBDEVFS_BULK` outcome used by the bulk path; `interruptUrb` is the URB
returned by `usbInterruptTransfer` (`actual_length` and buffer contents),
or `none` when that call failed. -/
def usbReadEndpoint (treatInterruptAsBulk : Bool)
    (transfer : UsbEndpointTransfer) (filters : List (Nat → Option Nat))
    (length : Nat) (bulkKernel : Except Nat Nat)
    (interruptUrb : Option (Nat × List Nat)) : ReadOutcome :=
  match transfer with
  | .Interrupt =>
    if treatInterruptAsBulk then
      let r := usbBulkTransfer true .Input bulkKernel
      usbReadFilterStage filters r.1 r.2
    else
      match interruptUrb with
      | some (actual, buf) =>
        usbReadFilterStage filters
          ((usbInterruptReadCopy length actual buf).2 : Int) none
      | none => usbReadFilterStage filters (-1) none
  | .Bulk =>
    let r := usbBulkTransfer true .Input bulkKernel
    usbReadFilterStage filters r.1 r.2
  | _ => usbReadFilterStage filters (-1) (some ENOSYS)

/-! ## Theorems -/

/-- C1: the retry quirk of `usbSubmitURB` is unreachable for any URB that
`usbMakeURB` built, because the retry guard demands a Bulk-typed URB on an
Interrupt endpoint while `usbMakeURB` types URBs from the same descriptor;
in particular an Interrupt-typed request rejected by the kernel with
`EINVAL` on an Interrupt endpoint fails immediately, with no retry as a
Bulk-typed request — the code contradicts the documented retry-once
behaviour. -/
theorem c1_interrupt_einval_not_retried :
    (∀ (kernel : Nat → KernelResult) (ep : UsbEndpointTransfer) (e : Nat),
        kernel (usbMakeUrbType ep) = .error e →
        usbSubmitURB kernel ep (usbMakeUrbType ep) = (false, [usbMakeUrbType ep]))
    ∧ usbSubmitURB (fun _ => .error EINVAL) .Interrupt (usbMakeUrbType .Interrupt)
        = (false, [USBDEVFS_URB_TYPE_INTERRUPT]) := by
  have key : ∀ (kernel : Nat → KernelResult) (ep : UsbEndpointTransfer) (e : Nat),
      kernel (usbMakeUrbType ep) = .error e →
      usbSubmitURB kernel ep (usbMakeUrbType ep) = (false, [usbMakeUrbType ep]) := by
    intro kernel ep e h
    cases ep <;>
      simp only [usbMakeUrbType, USBDEVFS_URB_TYPE_ISO, USBDEVFS_URB_TYPE_INTERRUPT,
        USBDEVFS_URB_TYPE_CONTROL, USBDEVFS_URB_TYPE_BULK] at h ⊢ <;>
      (unfold usbSubmitURB
       simp [h, USBDEVFS_URB_TYPE_ISO, USBDEVFS_URB_TYPE_INTERRUPT,
         USBDEVFS_URB_TYPE_CONTROL, USBDEVFS_URB_TYPE_BULK])
  exact ⟨key, key (fun _ => .error EINVAL) .Interrupt EINVAL rfl⟩

/-- C1 witness: a kernel that always answers `EINVAL` makes the Interrupt
submission fail after a single attempt. -/
theorem c1_interrupt_einval_not_retried_witness :
    usbSubmitURB (fun _ => .error EINVAL) .Interrupt (usbMakeUrbType .Interrupt)
      = (false, [usbMakeUrbType .Interrupt]) :=
  c1_interrupt_einval_not_retried.1 (fun _ => .error EINVAL) .Interrupt EINVAL rfl

/-- Helper: the post-disconnect iteration performs exactly one claim ioctl
and never disconnects. -/
theorem usbClaimRetry_counts (claim : Nat → KernelResult) (i : Nat) :
    (usbClaimRetry claim i).claimCalls = 1 ∧
    (usbClaimRetry claim i).disconnectCalls = 0 := by
  cases h : claim i <;> simp [usbClaimRetry, h]

/-- C2: a claim whose first kernel attempt fails busy either fails
immediately with `EBUSY` after one ioctl and no disconnect when the owner
is the usbfs driver itself, or force-disconnects the owner exactly once
and retries the claim exactly once — a second busy failure is terminal
with `EBUSY`, and a successful retry succeeds; in every execution at most
two claim ioctls and at most one disconnect happen. -/
theorem c2_claim_busy_disconnect_retry (claim : Nat → KernelResult)
    (d : String) (disconnectOk : Bool) (hbusy : claim 0 = .error EBUSY) :
    (usbClaimInterface claim (some "usbfs") disconnectOk = ⟨false, EBUSY, 1, 0⟩)
    ∧ (d ≠ "usbfs" → claim 1 = .error EBUSY →
        usbClaimInterface claim (some d) true = ⟨false, EBUSY, 2, 1⟩)
    ∧ (d ≠ "usbfs" → claim 1 = .ok () →
        usbClaimInterface claim (some d) true = ⟨true, 0, 2, 1⟩)
    ∧ (∀ (driver : Option String) (dOk : Bool),
        (usbClaimInterface claim driver dOk).claimCalls ≤ 2 ∧
        (usbClaimInterface claim driver dOk).disconnectCalls ≤ 1) := by
  refine ⟨?_, ?_, ?_, ?_⟩
  · simp [usbClaimInterface, hbusy]
  · intro hd h1
    simp [usbClaimInterface, usbClaimRetry, hbusy, hd, h1]
  · intro hd h1
    simp [usbClaimInterface, usbClaimRetry, hbusy, hd, h1]
  · intro driver dOk
    have hc := usbClaimRetry_counts claim 1
    cases h : claim 0 with
    | ok u => simp [usbClaimInterface, h]
    | error e =>
      by_cases he : e = EBUSY
      · cases driver with
        | none => simp [usbClaimInterface, h, he]
        | some d0 =>
          by_cases hd0 : d0 = "usbfs"
          · simp [usbClaimInterface, h, he, hd0]
          · by_cases hdo : dOk = true
            · simp [usbClaimInterface, h, he, hd0, hdo, hc.1, hc.2]
            · simp [usbClaimInterface, h, he, hd0, Bool.eq_false_iff.mpr hdo]
      · simp [usbClaimInterface, h, he]

/-- C2 witness: with a kernel that is busy on both attempts and a foreign
owning driver, the engine disconnects once, retries once, and fails
busy. -/
theorem c2_claim_busy_disconnect_retry_witness :
    usbClaimInterface (fun _ => .error EBUSY) (some "usbhid") true
      = ⟨false, EBUSY, 2, 1⟩ :=
  (c2_claim_busy_disconnect_retry (fun _ => .error EBUSY) "usbhid" true rfl).2.1
    (by decide) rfl

/-- Helper for C3: iterating the zero-byte backoff step `k + 1` times from
any starting delay of at least 1 doubles it `k + 1` times, capped. -/
theorem usbZeroByteStep_iterate (cap nominal : Nat) (hn : 1 ≤ nominal) :
    ∀ k : Nat, (usbZeroByteStep cap)^[k + 1] nominal
      = min (nominal <<< (k + 1)) cap := by
  intro k
  induction k with
  | zero =>
    have hnz : nominal ≠ 0 := by omega
    simp [usbZeroByteStep, hnz]
  | succ k ih =>
    rw [Function.iterate_succ_apply', ih]
    have hpos : 1 ≤ nominal * 2 ^ (k + 1) :=
      Nat.one_le_iff_ne_zero.mpr
        (Nat.mul_ne_zero (by omega) (Nat.pos_iff_ne_zero.mp (Nat.two_pow_pos _)))
    simp only [usbZeroByteStep, Nat.shiftLeft_eq]
    by_cases hz : min (nominal * 2 ^ (k + 1)) cap = 0
    · have hc : cap = 0 := by omega
      simp [hz, hc]
    · have h2 : nominal * 2 ^ (k + 1 + 1) = nominal * 2 ^ (k + 1) * 2 := by
        rw [pow_succ, Nat.mul_assoc]
      rw [if_neg hz, h2]
      omega

/-- C3: starting from the nominal resubmission interval, `N ≥ 1`
consecutive zero-byte completions leave the backoff interval at
`min(nominal << N, cap)` where `cap` is the fixed poll-interval cap, and
any completion with a positive transferred count (whose data is enqueued)
resets the interval to the nominal value. -/
theorem c3_backoff_doubling_and_reset (cap nominal N : Nat)
    (hn : 1 ≤ nominal) (hN : 1 ≤ N) :
    (usbZeroByteStep cap)^[N] nominal = min (nominal <<< N) cap
    ∧ (∀ (count : Int) (delay : Nat), 0 < count →
        usbMonitorDelayStep cap nominal count true delay = some nominal) := by
  constructor
  · obtain ⟨k, rfl⟩ : ∃ k, N = k + 1 := ⟨N - 1, by omega⟩
    exact usbZeroByteStep_iterate cap nominal hn k
  · intro count delay hpos
    have hne : count ≠ 0 := by omega
    simp [usbMonitorDelayStep, hne, hpos]

/-- C3 witness: with cap 40 and nominal interval 2, three zero-byte
completions leave the backoff at `min(2 << 3, 40) = 16`, and a positive
completion resets it to 2. -/
theorem c3_backoff_doubling_and_reset_witness :
    (usbZeroByteStep 40)^[3] 2 = min (2 <<< 3) 40
    ∧ usbMonitorDelayStep 40 2 5 true 16 = some 2 :=
  ⟨(c3_backoff_doubling_and_reset 40 2 3 (by decide) (by decide)).1,
   (c3_backoff_doubling_and_reset 40 2 3 (by decide) (by decide)).2 5 16
     (by decide)⟩

/-- C4: cancelling a request that is already in the completed-request
queue of its endpoint succeeds no matter what the discard ioctl and any
further reaping would report, removes exactly that entry from the queue,
and frees the request exactly once; if the request was queued exactly
once it is gone from the queue afterwards, so it can no longer be
delivered to a caller. -/
theorem c4_cancel_completed_request (discard : KernelResult) (q : List Nat)
    (r : Nat) (outcomes : List ReapOutcome) (hmem : r ∈ q) :
    usbCancelRequest discard q r outcomes = ⟨true, q.erase r, 1⟩
    ∧ (q.count r = 1 → r ∉ q.erase r) := by
  constructor
  · have hdrain : ∀ reap, usbCancelDrain r reap q outcomes = (true, q.erase r) := by
      intro reap
      rw [usbCancelDrain.eq_def]
      simp [hmem]
    simp [usbCancelRequest, hdrain]
  · intro hcount
    have h := List.count_erase_self r q
    rw [hcount] at h
    exact fun hr => by
      have := List.count_pos_iff.mpr hr
      omega

/-- C4 witness: cancelling request 7, already queued behind request 5,
with a discard ioctl failing `EINVAL` and a failing reap stream, succeeds,
leaves only request 5 queued, and frees 7 exactly once. -/
theorem c4_cancel_completed_request_witness :
    usbCancelRequest (.error EINVAL) [5, 7] 7 [.fail] = ⟨true, [5], 1⟩
    ∧ 7 ∉ ([5, 7] : List Nat).erase 7 :=
  ⟨(c4_cancel_completed_request (.error EINVAL) [5, 7] 7 [.fail]
      (by decide)).1,
   (c4_cancel_completed_request (.error EINVAL) [5, 7] 7 [.fail]
      (by decide)).2 (by decide)⟩

/-- C5: entries of the discovery walk are treated as device nodes exactly
by the all-decimal-digits name test — a non-numeric entry contributes
nothing, a numeric-named directory is recursed into, a numeric-named
regular or character-special file goes through `usbAddHostDevice`, any
other file type is skipped; and a root holding node `/1/2` next to a
non-numeric entry `/abc` yields an inventory with exactly the one entry
`/1/2`. -/
theorem c5_numeric_entries_only (ro : String → Bool) (root name : String)
    (node : FsNode) (rest : List (String × FsNode)) :
    (usbNameIsNumeric name = false →
      usbScanEntries ro root ((name, node) :: rest)
        = usbScanEntries ro root rest)
    ∧ (∀ entries, usbNameIsNumeric name = true →
        usbScanEntries ro root ((name, .dir entries) :: rest)
          = usbScanEntries ro (root ++ "/" ++ name) entries
            ++ usbScanEntries ro root rest)
    ∧ (usbNameIsNumeric name = true →
        usbScanEntries ro root ((name, .reg) :: rest)
          = usbAddHostDevice ro (root ++ "/" ++ name)
            ++ usbScanEntries ro root rest)
    ∧ (usbNameIsNumeric name = true →
        usbScanEntries ro root ((name, .chr) :: rest)
          = usbAddHostDevice ro (root ++ "/" ++ name)
            ++ usbScanEntries ro root rest)
    ∧ (usbNameIsNumeric name = true →
        usbScanEntries ro root ((name, .other) :: rest)
          = usbScanEntries ro root rest)
    ∧ usbAddHostDevices (fun _ => true) ""
        [("1", .dir [("2", .chr)]), ("abc", .reg)] = ["/1/2"] := by
  refine ⟨?_, ?_, ?_, ?_, ?_, ?_⟩
  · intro h
    simp [usbScanEntries, h]
  · intro entries h
    simp [usbScanEntries, usbScanNode, h]
  · intro h
    simp [usbScanEntries, usbScanNode, h]
  · intro h
    simp [usbScanEntries, usbScanNode, h]
  · intro h
    simp [usbScanEntries, usbScanNode, h]
  · simp [usbAddHostDevices, usbScanEntries, usbScanNode, usbAddHostDevice,
      usbNameIsNumeric]

/-- C5 witness: the skip rule applied to the non-numeric entry `abc` of
the scenario root, and the scenario inventory itself. -/
theorem c5_numeric_entries_only_witness :
    usbScanEntries (fun _ => true) "" [("abc", .reg)]
      = usbScanEntries (fun _ => true) "" []
    ∧ usbAddHostDevices (fun _ => true) ""
        [("1", .dir [("2", .chr)]), ("abc", .reg)] = ["/1/2"] :=
  ⟨(c5_numeric_entries_only (fun _ => true) "" "abc" .reg []).1 rfl,
   (c5_numeric_entries_only (fun _ => true) "" "abc" .reg []).2.2.2.2.2⟩

/-- C6 counterexample: parsing a suffix `/2/130` gives bus 2 and device
130; the code computes `((2-1) << 7) | (130-1) = 128 ||| 129 = 129`,
while the claimed formula `(2-1)*128 + (130-1)` gives 257. -/
theorem c6_minor_or_vs_add_counterexample :
    usbBusDeviceMinor 2 130 ≠ (2 - 1) * 128 + (130 - 1) := by
  decide

/-- Helper for C6: the probing loop returns exactly the first list element
accepted by the existence test. -/
theorem usbProbeFormats_first (pe : String → Bool) :
    ∀ (l : List String) (p : String), usbProbeFormats pe l = some p →
      ∃ l1 l2, l = l1 ++ p :: l2 ∧ (∀ q ∈ l1, pe q = false) ∧ pe p = true := by
  intro l
  induction l with
  | nil =>
    intro p h
    simp [usbProbeFormats] at h
  | cons x rest ih =>
    intro p h
    by_cases hx : pe x = true
    · have hxp : x = p := by simpa [usbProbeFormats, hx] using h
      subst hxp
      exact ⟨[], rest, rfl, by simp, hx⟩
    · have hx2 : pe x = false := by simpa using hx
      have h2 : usbProbeFormats pe rest = some p := by
        simpa [usbProbeFormats, hx2] using h
      obtain ⟨l1, l2, heq, hall, hp⟩ := ih p h2
      refine ⟨x :: l1, l2, by simp [heq], ?_, hp⟩
      intro q hq
      rcases List.mem_cons.mp hq with hqx | hql
      · rw [hqx]; exact hx2
      · exact hall q hql

/-- C6 amended: the minor number is the C expression
`((bus - 1) << 7) | (device - 1)` — a bitwise or, which coincides with
`(bus - 1) * 128 + (device - 1)` whenever `device - 1 < 128` (always true
for real USB device numbers, which are at most 127) — and the template
whose instantiated path is accepted is the first existing one. -/
theorem c6_minor_arithmetic_and_first_template :
    (∀ bus device : Nat, 1 ≤ bus → bus ≤ 2 ^ 25 → 1 ≤ device →
        device ≤ 128 →
        usbBusDeviceMinor bus device = (bus - 1) * 128 + (device - 1))
    ∧ (∀ (pe : String → Bool) (bus device : Nat) (p : String),
        usbMakeSysfsPath pe bus device = some p →
        ∃ l1 l2, usbSysfsCandidates bus device = l1 ++ p :: l2
          ∧ (∀ q ∈ l1, pe q = false) ∧ pe p = true) := by
  constructor
  · intro bus device h1 h2 h3 h4
    have hb : cDec bus = bus - 1 := by
      simp only [cDec, U32]
      omega
    have hd : cDec device = device - 1 := by
      simp only [cDec, U32]
      omega
    have h128 : (2 : Nat) ^ 7 = 128 := by norm_num
    have hlt : device - 1 < 2 ^ 7 := by omega
    have hor := Nat.mul_add_lt_is_or hlt (bus - 1)
    rw [h128] at hor
    have hmod : (bus - 1) * 128 % U32 = (bus - 1) * 128 := by
      apply Nat.mod_eq_of_lt
      simp only [U32]
      omega
    simp only [usbBusDeviceMinor, hb, hd, Nat.shiftLeft_eq, h128, hmod]
    rw [Nat.mul_comm (bus - 1) 128, ← hor]
  · intro pe bus device p h
    exact usbProbeFormats_first pe (usbSysfsCandidates bus device) p h

/-- C6 witness: bus 1 and device 2 give minor `(1-1)*128 + (2-1) = 1`, and
with every path reported existing the first template is the one accepted,
with nothing before it. -/
theorem c6_minor_arithmetic_and_first_template_witness :
    usbBusDeviceMinor 1 2 = (1 - 1) * 128 + (2 - 1)
    ∧ ∃ l1 l2, usbSysfsCandidates 1 2 = l1 ++ "/sys/dev/char/189:1" :: l2
        ∧ (∀ q ∈ l1, (fun (_ : String) => true) q = false)
        ∧ (fun (_ : String) => true) "/sys/dev/char/189:1" = true :=
  ⟨c6_minor_arithmetic_and_first_template.1 1 2 (by norm_num) (by norm_num)
      (by norm_num) (by norm_num),
   c6_minor_arithmetic_and_first_template.2 (fun _ => true) 1 2
      "/sys/dev/char/189:1" (by decide)⟩

/-- C7: on an open handle, a release whose kernel request fails with the
device-gone status `ENODEV` still returns success; a successful request
returns success; any other kernel failure returns failure. -/
theorem c7_release_tolerates_device_gone :
    usbReleaseInterface true (.error ENODEV) = true
    ∧ usbReleaseInterface true (.ok ()) = true
    ∧ (∀ e, e ≠ ENODEV → usbReleaseInterface true (.error e) = false) := by
  refine ⟨rfl, rfl, ?_⟩
  intro e he
  simp [usbReleaseInterface, he]

/-- C7 witness: a release failing with `EIO` — not device-gone — fails. -/
theorem c7_release_tolerates_device_gone_witness :
    usbReleaseInterface true (.error EIO) = false :=
  c7_release_tolerates_device_gone.2.2 EIO (by decide)

/-- C8: a synchronous bulk transfer that fails with a kernel timeout on an
input endpoint leaves `errno = EAGAIN` (the retryable no-data-yet
condition); on an output endpoint the timeout is surfaced unchanged as
`ETIMEDOUT`, and every other error is surfaced unchanged on either
direction. -/
theorem c8_input_timeout_remapped_to_eagain :
    usbBulkTransfer true .Input (.error ETIMEDOUT) = (-1, some EAGAIN)
    ∧ usbBulkTransfer true .Output (.error ETIMEDOUT) = (-1, some ETIMEDOUT)
    ∧ (∀ e, e ≠ ETIMEDOUT → usbBulkTransfer true .Input (.error e) = (-1, some e))
    ∧ (∀ e, usbBulkTransfer true .Output (.error e) = (-1, some e)) := by
  refine ⟨rfl, rfl, ?_, ?_⟩
  · intro e he
    simp [usbBulkTransfer, he]
  · intro e
    simp [usbBulkTransfer]

/-- C8 witness: an input-endpoint failure with `EIO` is surfaced
unchanged, and so is an output-endpoint failure with `ENODEV`. -/
theorem c8_input_timeout_remapped_to_eagain_witness :
    usbBulkTransfer true .Input (.error EIO) = (-1, some EIO)
    ∧ usbBulkTransfer true .Output (.error ENODEV) = (-1, some ENODEV) :=
  ⟨c8_input_timeout_remapped_to_eagain.2.2.1 EIO (by decide),
   c8_input_timeout_remapped_to_eagain.2.2.2 ENODEV⟩

/-- C9: on every read path that receives data successfully — a bulk
endpoint, an interrupt endpoint treated as bulk, and an interrupt
endpoint served by the request-polling path — the result handed back is
the output of the input-filter chain on the received count: if the chain
rejects the block the read returns `-1` with `errno = EIO`, and if the
chain accepts it with adjusted count `c` the read returns `c`. -/
theorem c9_filter_rejection_becomes_eio
    (filters : List (Nat → Option Nat)) (n length actual : Nat)
    (buf : List Nat) (treatInterruptAsBulk : Bool)
    (bulkKernel : Except Nat Nat) :
    (usbApplyInputFilters filters n = none →
      usbReadEndpoint treatInterruptAsBulk .Bulk filters length (.ok n) none
        = ⟨-1, some EIO⟩)
    ∧ (∀ c, usbApplyInputFilters filters n = some c →
      usbReadEndpoint treatInterruptAsBulk .Bulk filters length (.ok n) none
        = ⟨(c : Int), none⟩)
    ∧ (usbApplyInputFilters filters n = none →
      usbReadEndpoint true .Interrupt filters length (.ok n) none
        = ⟨-1, some EIO⟩)
    ∧ (∀ c, usbApplyInputFilters filters n = some c →
      usbReadEndpoint true .Interrupt filters length (.ok n) none
        = ⟨(c : Int), none⟩)
    ∧ (usbApplyInputFilters filters (usbInterruptReadCopy length actual buf).2
        = none →
      usbReadEndpoint false .Interrupt filters length bulkKernel
        (some (actual, buf)) = ⟨-1, some EIO⟩)
    ∧ (∀ c, usbApplyInputFilters filters
        (usbInterruptReadCopy length actual buf).2 = some c →
      usbReadEndpoint false .Interrupt filters length bulkKernel
        (some (actual, buf)) = ⟨(c : Int), none⟩) := by
  have hne : ((n : Int)) ≠ -1 := by omega
  have hne2 : (((usbInterruptReadCopy length actual buf).2 : Int)) ≠ -1 := by
    omega
  refine ⟨?_, ?_, ?_, ?_, ?_, ?_⟩
  · intro h
    simp [usbReadEndpoint, usbBulkTransfer, usbReadFilterStage, hne, h]
  · intro c h
    simp [usbReadEndpoint, usbBulkTransfer, usbReadFilterStage, hne, h]
  · intro h
    simp [usbReadEndpoint, usbBulkTransfer, usbReadFilterStage, hne, h]
  · intro c h
    simp [usbReadEndpoint, usbBulkTransfer, usbReadFilterStage, hne, h]
  · intro h
    simp [usbReadEndpoint, usbReadFilterStage, hne2, h]
  · intro c h
    simp [usbReadEndpoint, usbReadFilterStage, hne2, h]

/-- C9 witness: a single always-rejecting filter converts a successful
4-byte read into `(-1, EIO)` on the bulk path, on the treat-as-bulk
interrupt path, and on the polling interrupt path, while an empty chain
passes the received count through on the bulk and polling paths. -/
theorem c9_filter_rejection_becomes_eio_witness :
    usbReadEndpoint true .Bulk [fun _ => none] 8 (.ok 4) none
      = ⟨-1, some EIO⟩
    ∧ usbReadEndpoint true .Bulk [] 8 (.ok 4) none = ⟨(4 : Int), none⟩
    ∧ usbReadEndpoint true .Interrupt [fun _ => none] 8 (.ok 4) none
      = ⟨-1, some EIO⟩
    ∧ usbReadEndpoint false .Interrupt [fun _ => none] 8 (.ok 0)
        (some (3, [21, 22, 23])) = ⟨-1, some EIO⟩
    ∧ usbReadEndpoint false .Interrupt [] 8 (.ok 0) (some (3, [21, 22, 23]))
      = ⟨(3 : Int), none⟩ :=
  ⟨(c9_filter_rejection_becomes_eio [fun _ => none] 4 8 3 [21, 22, 23] true
      (.ok 4)).1 rfl,
   (c9_filter_rejection_becomes_eio [] 4 8 3 [21, 22, 23] true
      (.ok 4)).2.1 4 rfl,
   (c9_filter_rejection_becomes_eio [fun _ => none] 4 8 3 [21, 22, 23] true
      (.ok 4)).2.2.1 rfl,
   (c9_filter_rejection_becomes_eio [fun _ => none] 4 8 3 [21, 22, 23] true
      (.ok 0)).2.2.2.2.1 rfl,
   (c9_filter_rejection_becomes_eio [] 4 8 3 [21, 22, 23] true
      (.ok 0)).2.2.2.2.2 3 rfl⟩

/-- C10: on the request-polling interrupt read path the count used for the
copy into the caller buffer never exceeds the requested length — when the
completed URB reports more transferred bytes than requested the count is
truncated to the requested length — the copied block itself is no longer
than the count, and with an identity filter chain the value returned to
the caller is that truncated count, hence at most the requested
length. -/
theorem c10_interrupt_read_truncates (length actual : Nat)
    (buf : List Nat) (bulkKernel : Except Nat Nat) :
    (usbInterruptReadCopy length actual buf).2 ≤ length
    ∧ (actual > length → (usbInterruptReadCopy length actual buf).2 = length)
    ∧ (usbInterruptReadCopy length actual buf).1.length
        ≤ (usbInterruptReadCopy length actual buf).2
    ∧ usbReadEndpoint false .Interrupt [] length bulkKernel
        (some (actual, buf))
        = ⟨((usbInterruptReadCopy length actual buf).2 : Int), none⟩
    ∧ ((usbInterruptReadCopy length actual buf).2 : Int) ≤ (length : Int) := by
  have hcount : (usbInterruptReadCopy length actual buf).2
      = if actual > length then length else actual := rfl
  refine ⟨?_, ?_, ?_, ?_, ?_⟩
  · rw [hcount]
    split <;> omega
  · intro h
    rw [hcount, if_pos h]
  · simp only [usbInterruptReadCopy, List.length_take]
    omega
  · have hne : (((usbInterruptReadCopy length actual buf).2 : Int)) ≠ -1 := by
      omega
    simp [usbReadEndpoint, usbReadFilterStage, usbApplyInputFilters, hne]
  · have h : (usbInterruptReadCopy length actual buf).2 ≤ length := by
      rw [hcount]; split <;> omega
    exact_mod_cast h

/-- C10 witness: a URB reporting 5 transferred bytes against a 2-byte
request is truncated to 2 bytes before the copy, and the polling read
returns 2. -/
theorem c10_interrupt_read_truncates_witness :
    (usbInterruptReadCopy 2 5 [10, 11, 12, 13, 14]).2 = 2
    ∧ usbReadEndpoint false .Interrupt [] 2 (.ok 0)
        (some (5, [10, 11, 12, 13, 14]))
        = ⟨((usbInterruptReadCopy 2 5 [10, 11, 12, 13, 14]).2 : Int), none⟩ :=
  ⟨(c10_interrupt_read_truncates 2 5 [10, 11, 12, 13, 14] (.ok 0)).2.1
      (by decide),
   (c10_interrupt_read_truncates 2 5 [10, 11, 12, 13, 14] (.ok 0)).2.2.2.1⟩

end UsbLinux
